import Mathlib

/-!
Verification of the pytooth HFP core against its natural-language
specification.  Shallow embedding of the relevant Python code:

* `pytooth/other/buffers.py`   — `ThreadSafeMemoryBuffer` (byte queue)
* `pytooth/hfp/helpers.py`     — `SerialPortConnection` (AT transaction channel)
* `pytooth/hfp/proxy.py`       — `RemotePhone` handshake step for codec choice
* `pytooth/hfp/managers.py`    — `MediaManager._sco_connection_ready`
* `pytooth/hfp/sinks.py`       — `PortAudioSink._data_required`
* `pytooth/other/pumps.py`     — `RealTimeSocketPump._worker_proc`

Bytes are modelled as `Nat`; Python byte strings as `List Nat`; Python
exceptions as `Except PyErr`.  Mutable attributes become explicit state
records, callbacks become fields of explicit result records.
-/

/-- Python exception kinds that the embedded code can raise. -/
inductive PyErr
  | keyError
  | typeError
  | valueError
  | connectionError
  deriving DecidableEq, Repr

/-! ## ThreadSafeMemoryBuffer — pytooth/other/buffers.py

The buffer holds `self._buffer : bytes`.  `get` returns the Python slice
`buffer[0:num_bytes]` and keeps `buffer[num_bytes:]`; `prepend` sets
`data + buffer`; `append` sets `buffer + data`.  The lock only serialises
access and does not affect the functional behaviour embedded here. -/

/-- Embedding of `ThreadSafeMemoryBuffer.get`: returns the extracted data
and the buffer contents that remain. -/
def bufGet (buf : List Nat) (n : Nat) : List Nat × List Nat :=
  (buf.take n, buf.drop n)

/-- Embedding of `ThreadSafeMemoryBuffer.prepend`. -/
def bufPrepend (d buf : List Nat) : List Nat :=
  d ++ buf

/-- Embedding of `ThreadSafeMemoryBuffer.append`. -/
def bufAppend (buf d : List Nat) : List Nat :=
  buf ++ d

/-! ## SerialPortConnection._handle_brsf — pytooth/hfp/helpers.py lines 201-213

`_handle_brsf` converts the AG feature bitmap into a dict with exactly the
six keys 3WAY, NREC, VOICE_RECOGNITION, INBAND, PHONE_VTAG, WIDE_BAND.
The preceding `int(params)` text-to-integer conversion is abstracted by
taking the bitmap as a `Nat`. -/

/-- Embedding of `SerialPortConnection._handle_brsf`: the decoded AG
feature dict, as an association list in the order the source writes it. -/
def handle_brsf (params : Nat) : List (String × Bool) :=
  [("3WAY", (params &&& 0x0001) == 0x0001),
   ("NREC", (params &&& 0x0002) == 0x0002),
   ("VOICE_RECOGNITION", (params &&& 0x0004) == 0x0004),
   ("INBAND", (params &&& 0x0008) == 0x0008),
   ("PHONE_VTAG", (params &&& 0x0010) == 0x0010),
   ("WIDE_BAND", (params &&& 0x0020) == 0x0020)]

/-- Embedding of a Python dict subscript `d[k]` on a string-keyed dict of
booleans: `KeyError` when the key is absent. -/
def dictGetB (d : List (String × Bool)) (k : String) : Except PyErr Bool :=
  match d.lookup k with
  | some v => Except.ok v
  | none => Except.error PyErr.keyError

/-- Embedding of the codec step of `RemotePhone._do_handshake`
(pytooth/hfp/proxy.py lines 200-207): after the BRSF reply is decoded the
coroutine evaluates `self._ag_features["CODEC_NEG"]` and, when true, sends
the narrowband restriction command `AT+BAC=1`.  The result is the list of
commands this step sends, or the exception the subscript raises. -/
def handshakeCodecStep (features : List (String × Bool)) : Except PyErr (List String) :=
  match dictGetB features "CODEC_NEG" with
  | Except.error e => Except.error e
  | Except.ok true => Except.ok ["AT+BAC=1"]
  | Except.ok false => Except.ok []

/-! ## CallStateMachine (modelled from the spec)

`pytooth/hfp/proxy.py` (line 8) imports `CallStateMachine` from
`pytooth.hfp.helpers`, but no definition of it exists anywhere in the
source tree; only the import and the call sites remain. -/

/-- Call states of the modelled machine.  The spec names idle, ringing
(incoming setup), active; outgoing setup and alerting states are included
because section 4.3 lists incoming/outgoing/alerting call-setup values. -/
inductive CallState
  | idle
  | ringing
  | dialing
  | alerting
  | active
  deriving DecidableEq, Repr

/-- Modelled from the spec: `CallStateMachine.transition` is missing from
the source (pytooth/hfp/helpers.py defines only `SerialPortConnection`),
so this follows section 4.3 — a pure function over indicator events
carrying a "call" field or a call-setup value — and section 8, which pins
callsetup value 3 as an incoming call.  Call-setup value 2 is taken as
outgoing and 1 as alerting; value 0 ends a pending setup.  The returned
flag reports whether the state changed. -/
def csmStep (s : CallState) (ind val : String) : CallState × Bool :=
  let s' :=
    if ind = "call" then
      if val = "1" then CallState.active
      else if val = "0" then CallState.idle
      else s
    else if ind = "callsetup" then
      if val = "3" then CallState.ringing
      else if val = "2" then CallState.dialing
      else if val = "1" then CallState.alerting
      else if val = "0" then
        (if s = CallState.active then s else CallState.idle)
      else s
    else s
  (s', if s' = s then false else true)

/-- Modelled from the spec: runs the call state machine over a sequence of
indicator events, returning the state after each event and the number of
events whose transition reported a change. -/
def csmRun (s : CallState) : List (String × String) → List CallState × Nat
  | [] => ([], 0)
  | (i, v) :: evs =>
      let r := csmStep s i v
      let rest := csmRun r.1 evs
      (r.1 :: rest.1, (if r.2 then 1 else 0) + rest.2)

/-! ## MediaManager._sco_connection_ready — pytooth/hfp/managers.py lines 238-312

After `accept` succeeds the handler reads the SCO MTU socket option, then
the sample-format socket option, and only then announces the connection.
Each option read is embedded as an `Except` input (the `getsockopt` call
either returns a value or raises). -/

/-- Observable outcome of one `_sco_connection_ready` invocation after a
successful `accept`: whether `on_media_setup_error` was invoked, whether
the accepted socket was closed, and whether `on_media_connected_changed`
fired with connected=True. -/
structure ScoOutcome where
  setupError : Bool
  acceptedClosed : Bool
  connectedFired : Bool
  deriving DecidableEq, Repr

/-- Embedding of `MediaManager._sco_connection_ready` from the point where
`accept` has returned a socket (lines 253-312).  An MTU read error closes
the socket and reports; a sample-format read error closes the socket and
reports; a sample format other than 96 (16-bit signed little-endian PCM)
reports and returns — the source has no `sock.close()` on that path;
otherwise the connected event fires. -/
def scoConnectionReady (mtuR : Except PyErr Nat) (modeR : Except PyErr Nat) : ScoOutcome :=
  match mtuR with
  | Except.error _ => { setupError := true, acceptedClosed := true, connectedFired := false }
  | Except.ok _ =>
    match modeR with
    | Except.error _ => { setupError := true, acceptedClosed := true, connectedFired := false }
    | Except.ok mode =>
      if mode ≠ 96 then
        { setupError := true, acceptedClosed := false, connectedFired := false }
      else
        { setupError := false, acceptedClosed := false, connectedFired := true }

/-! ## RealTimeSocketPump._worker_proc — pytooth/other/pumps.py lines 89-164

The worker loop polls the socket, sleeps when nothing is ready, performs
at most one `recv` and one `send` per iteration, and is controlled by the
condition `while self._started or fatal`.  An epoll failure dispatches
`on_fatal_error` and sets `fatal`; a `recv` or `send` failure only sets
`fatal`.  The loop body is embedded as a transition on an explicit state,
with the per-iteration outcomes of the OS calls supplied as inputs. -/

/-- Observable pump state: the `_started` flag, the local `fatal` flag,
how many times `on_fatal_error` has been dispatched, how many `recv` or
`send` calls the worker has performed, and the send-buffer length. -/
structure PumpState where
  started : Bool
  fatal : Bool
  reported : Nat
  socketOps : Nat
  sendBufLen : Nat
  deriving DecidableEq, Repr

/-- Per-iteration outcome of `ep.poll`: an exception, or readiness bits. -/
inductive PollOutcome
  | pollFailed
  | ready (canRead canWrite : Bool)
  deriving DecidableEq, Repr

/-- Per-iteration outcomes of the OS calls the worker may make: the poll
result and whether `recv` and `send` would succeed if attempted. -/
structure IterEnv where
  poll : PollOutcome
  recvOk : Bool
  sendOk : Bool
  deriving DecidableEq, Repr

/-- Embedding of the loop guard `while self._started or fatal` of
`_worker_proc` (line 105). -/
def pumpLoopCond (st : PumpState) : Bool :=
  st.started || st.fatal

/-- Embedding of one iteration of the `_worker_proc` loop body (lines
107-154).  Poll failure dispatches `on_fatal_error`, sets `fatal` and
continues; no readiness sleeps and continues; a readable socket performs
one `recv` (a failure only sets `fatal` — no report); a writable socket
with a full MTU queued performs one `send` whose argument consumes the
MTU bytes first (a failure only sets `fatal` — no report). -/
def pumpIter (mtu : Nat) (st : PumpState) (env : IterEnv) : PumpState :=
  match env.poll with
  | PollOutcome.pollFailed =>
      { st with fatal := true, reported := st.reported + 1 }
  | PollOutcome.ready canRead canWrite =>
    if canRead = false ∧ canWrite = false then st
    else
      let st1 :=
        if canRead then
          { st with socketOps := st.socketOps + 1,
                    fatal := if env.recvOk then st.fatal else true }
        else st
      if canWrite ∧ mtu ≤ st1.sendBufLen then
        { st1 with socketOps := st1.socketOps + 1,
                   fatal := if env.sendOk then st1.fatal else true,
                   sendBufLen := st1.sendBufLen - mtu }
      else st1

/-- Embedding of the `_worker_proc` loop: consumes iteration environments
while the source's loop guard holds. -/
def pumpRun (mtu : Nat) (st : PumpState) : List IterEnv → PumpState
  | [] => st
  | e :: es => if pumpLoopCond st then pumpRun mtu (pumpIter mtu st e) es else st

/-! ## PortAudioSink._data_required — pytooth/hfp/sinks.py lines 111-146

State per callback: the `_started` flag, the `_buffering` flag, the
buffering-window end instant `_buffer_end`, and the ring buffer contents.
Wall-clock instants are modelled as naturals; `_frame_size` is 2 bytes
(mono 16-bit) and `_underrun_frame` is 2 zero bytes. -/

/-- Sink frame size in bytes: 1 channel times 2 bytes per sample
(pytooth/hfp/sinks.py line 65). -/
def sinkFrameSize : Nat := 2

/-- Silence returned for a requested frame count: the Python expression
`self._underrun_frame * frame_count`. -/
def silenceBytes (frameCount : Nat) : List Nat :=
  List.replicate (sinkFrameSize * frameCount) 0

/-- PortAudio stream continuation flag returned by the callback. -/
inductive PaFlag
  | paContinue
  | paComplete
  deriving DecidableEq, Repr

/-- Mutable sink state read and written by `_data_required`. -/
structure SinkState where
  started : Bool
  buffering : Bool
  bufferEnd : Nat
  buffer : List Nat
  deriving DecidableEq, Repr

/-- Embedding of `PortAudioSink._data_required`.  Inputs: the state, the
current wall-clock instant, the configured buffering duration and the
requested frame count.  Output: the bytes and flag handed to PortAudio,
and the updated state.  Mirrors the source: a stopped sink returns
silence with the completion flag; `_buffering` is refreshed against the
window end; while buffering the callback returns silence; otherwise real
data is drawn from the ring buffer when at least the requested byte count
is available, else the callback re-enters buffering, resets the window
end and returns silence. -/
def dataRequired (st : SinkState) (now dur frameCount : Nat) :
    (List Nat × PaFlag) × SinkState :=
  match st.started with
  | false => ((silenceBytes frameCount, PaFlag.paComplete), st)
  | true =>
    let buffering1 := st.buffering && decide (now < st.bufferEnd)
    let st1 := { st with buffering := buffering1 }
    match buffering1 with
    | true => ((silenceBytes frameCount, PaFlag.paContinue), st1)
    | false =>
      let req := sinkFrameSize * frameCount
      if req ≤ st1.buffer.length then
        let g := bufGet st1.buffer req
        ((g.1, PaFlag.paContinue), { st1 with buffer := g.2 })
      else
        ((silenceBytes frameCount, PaFlag.paContinue),
         { st1 with buffering := true, bufferEnd := now + dur })

/-- Initial pump state right after `start`: started, no error seen, no
report dispatched, no socket operation performed, empty send buffer. -/
def pumpStart : PumpState :=
  { started := true, fatal := false, reported := 0, socketOps := 0, sendBufLen := 0 }

/-- Iteration input: socket readable and the `recv` call fails. -/
def readFailEnv : IterEnv :=
  { poll := PollOutcome.ready true false, recvOk := false, sendOk := true }

/-- Iteration input: socket readable and the `recv` call succeeds. -/
def readOkEnv : IterEnv :=
  { poll := PollOutcome.ready true false, recvOk := true, sendOk := true }

/-- Iteration input: the `ep.poll` call itself fails. -/
def pollFailEnv : IterEnv :=
  { poll := PollOutcome.pollFailed, recvOk := true, sendOk := true }

/-- Sink state inside an open buffering window with 4 buffered bytes. -/
def sinkInWindow : SinkState :=
  { started := true, buffering := true, bufferEnd := 100, buffer := [1, 2, 3, 4] }

/-- Sink state outside any buffering window with 4 buffered bytes. -/
def sinkReadyState : SinkState :=
  { started := true, buffering := false, bufferEnd := 0, buffer := [7, 8, 9, 10] }

/-! ## SerialPortConnection._data_ready — pytooth/hfp/helpers.py lines 85-120

The streaming read callback prepends the remainder left by the previous
call, then repeatedly splits on the CRLF delimiter (bytes 13, 10) exactly
as Python `data.split` with count 1 does — at the leftmost occurrence —
dispatching each complete message and keeping the trailing fragment
without a delimiter as the new remainder.  Each dispatched message is
decoded as ASCII with non-ASCII bytes dropped after a warning, and empty
messages are skipped. -/

/-- Leftmost-first split of a byte sequence at every CRLF delimiter: the
complete messages in order and the trailing fragment that holds no
delimiter.  This is the loop of `_data_ready` applied to one byte
string. -/
def splitOnCRLF : List Nat → List (List Nat) × List Nat
  | [] => ([], [])
  | 13 :: 10 :: rest =>
      let p := splitOnCRLF rest
      ([] :: p.1, p.2)
  | a :: rest =>
      let p := splitOnCRLF rest
      match p.1 with
      | [] => ([], a :: p.2)
      | m :: ms => ((a :: m) :: ms, p.2)

/-- Best-effort ASCII decode of one raw message: bytes at or above 128
fail strict ASCII decoding and are dropped by the errors-ignore retry. -/
def asciiIgnore (m : List Nat) : List Nat :=
  m.filter (fun b => decide (b < 128))

/-- Messages handed to `_on_message`: each raw message ASCII-decoded,
then empty decoded messages skipped by the length guard. -/
def dispatchMsgs (msgs : List (List Nat)) : List (List Nat) :=
  (msgs.map asciiIgnore).filter (fun m => decide (0 < m.length))

/-- Embedding of successive `_data_ready` invocations: each chunk is
prepended with the current remainder, split on CRLF, its complete
messages dispatched in order, and the trailing fragment carried to the
next chunk.  Returns all dispatched raw messages and the final
remainder. -/
def processChunks (rem : List Nat) : List (List Nat) → List (List Nat) × List Nat
  | [] => ([], rem)
  | c :: cs =>
      let p := splitOnCRLF (rem ++ c)
      let rest := processChunks p.2 cs
      (p.1 ++ rest.1, rest.2)

/-! ## SerialPortConnection reply tracking — pytooth/hfp/helpers.py

`self._reply_q` is a defaultdict mapping a reply code to a Python list of
queue entries, each holding a promise (`Future`) and its timeout handle.
`send_message` appends a fresh entry to the end of the code's list (lines
273-283).  `_on_message` fetches an entry for an arriving reply with
`self._reply_q[code].pop()` — Python's argumentless `pop`, which removes
the LAST element of the list — then cancels that entry's timer and
resolves that entry's future; on `IndexError` (empty list) the decoded
payload goes to `self.on_message` when that callback is set (lines
147-159 for OK, 181-199 for +CODE replies). -/

/-- One `_reply_q` entry: the future and its timeout handle, identified
by numerals. -/
structure QEntry where
  fut : Nat
  timer : Nat
  deriving DecidableEq, Repr

/-- The reply-queue dict: reply code to list of entries, oldest first. -/
abbrev ReplyQ : Type := List (String × List QEntry)

/-- Defaultdict read `self._reply_q[code]`: the stored list, or the empty
list when the code has no entry yet. -/
def qFetch (q : ReplyQ) (code : String) : List QEntry :=
  match List.lookup code q with
  | some l => l
  | none => []

/-- Store back a code's entry list, preserving the other codes. -/
def qStore (q : ReplyQ) (code : String) (l : List QEntry) : ReplyQ :=
  match q with
  | [] => [(code, l)]
  | (c, l0) :: rest =>
      if c = code then (code, l) :: rest else (c, l0) :: qStore rest code l

/-- Embedding of Python `list.pop()` on an entry list: the removed last
element (none on the empty list, where Python raises `IndexError`) and
the remaining list. -/
def popNewest (l : List QEntry) : Option QEntry × List QEntry :=
  (l.getLast?, l.dropLast)

/-- Embedding of the `send_message` tracking step (lines 273-283): a new
entry is appended to the end of the expected code's list. -/
def sendTrack (q : ReplyQ) (code : String) (e : QEntry) : ReplyQ :=
  qStore q code (qFetch q code ++ [e])

/-- How an arriving reply was delivered. -/
inductive Delivery
  | resolved (e : QEntry)
  | toOnMessage
  | dropped
  deriving DecidableEq, Repr

/-- Result of delivering one arriving reply: the delivery, the timeout
handle passed to `io_loop.remove_timeout` (if any), and the queue that
remains. -/
structure DeliverResult where
  delivery : Delivery
  cancelledTimer : Option Nat
  q : ReplyQ
  deriving DecidableEq, Repr

/-- Embedding of the reply-to-promise correlation of `_on_message` (OK
branch lines 147-159, decoded-reply branch lines 181-199, successful
handler): `pop()` an entry from the code's list — the LAST one — cancel
its timer and resolve its future; on an empty list hand the payload to
`on_message` when the callback is set, else drop it. -/
def deliverReply (q : ReplyQ) (code : String) (hasOnMessage : Bool) : DeliverResult :=
  match popNewest (qFetch q code) with
  | (some e, rest) =>
      { delivery := Delivery.resolved e, cancelledTimer := some e.timer,
        q := qStore q code rest }
  | (none, _) =>
      { delivery := if hasOnMessage then Delivery.toOnMessage else Delivery.dropped,
        cancelledTimer := none, q := q }

/-! ## SerialPortConnection._on_close — pytooth/hfp/helpers.py lines 122-136

The close handler clears the stream and remainder, then runs
`for item in self._reply_q.values(): item["future"].set_exception(...)`.
Each value of `_reply_q` is a LIST of entries, and subscripting a Python
list with the string "future" raises `TypeError`, so the first loop
iteration aborts the handler whenever the dict holds any key; only with
an empty dict does control reach `self._reply_q.clear()` and the
`on_close` callback. -/

/-- What `_on_close` achieved when it ran to completion: the futures
failed with the connection-closed error, whether the queues were cleared
and whether `on_close` fired. -/
structure CloseResult where
  failedFutures : List Nat
  queueCleared : Bool
  onCloseFired : Bool
  deriving DecidableEq, Repr

/-- Embedding of `_on_close`: with no tracked reply code the loop body
never runs, the queue is cleared and `on_close` fires; with any tracked
code the statement `item["future"]` subscripts a list with a string and
the handler aborts with `TypeError` before failing any future, clearing
the queues or firing `on_close`. -/
def onCloseStep (q : ReplyQ) (hasOnClose : Bool) : Except PyErr CloseResult :=
  match q with
  | [] => Except.ok { failedFutures := [], queueCleared := true, onCloseFired := hasOnClose }
  | _ :: _ => Except.error PyErr.typeError

/-! ## SerialPortConnection._on_message, +CODE dispatch — lines 161-199

A non-OK, non-ERROR message has the form `+CODE:params`.  Code CME is
routed to `on_error` through the CME mapping; otherwise a decoder method
named `_handle_` + lowercased code is looked up on the instance — the
class defines exactly `_handle_brsf`, `_handle_chld`, `_handle_ciev`,
`_handle_cind` and `_handle_cme` — and when the lookup fails the message
is logged and ignored.  Found decoders feed `deliverReply` above. -/

/-- ASCII lowercasing of one character, as Python `str.lower` acts on the
ASCII reply codes of this protocol. -/
def lowerChar (c : Char) : Char :=
  if 'A' ≤ c ∧ c ≤ 'Z' then Char.ofNat (c.toNat + 32) else c

/-- ASCII lowercasing of a code, character list view. -/
def lowerStr (s : String) : List Char :=
  s.toList.map lowerChar

/-- Decoder methods defined on `SerialPortConnection`, by lowercased
reply code. -/
def decoderCodes : List String := ["brsf", "chld", "ciev", "cind", "cme"]

/-- Whether `getattr(self, "_handle_" + code.lower())` succeeds. -/
def hasDecoder (code : String) : Bool :=
  decoderCodes.any (fun s => s.toList == lowerStr code)

/-- Observable outcome of the `+CODE:params` branch of `_on_message`. -/
inductive PlusOutcome
  | errorCB
  | handledReply (d : DeliverResult)
  | warnedIgnored
  | noCallback
  deriving DecidableEq, Repr

/-- Embedding of the `+CODE:params` dispatch of `_on_message` (lines
161-199): the CME shortcut fires `on_error` (when set) and returns with
the queue untouched; an unknown code is logged and ignored with the
queue untouched; a known code goes through the reply correlation. -/
def onPlusMessage (q : ReplyQ) (code : String) (hasOnMessage hasOnError : Bool) :
    PlusOutcome × ReplyQ :=
  if code = "CME" then
    ((if hasOnError then PlusOutcome.errorCB else PlusOutcome.noCallback), q)
  else if hasDecoder code then
    let d := deliverReply q code hasOnMessage
    (PlusOutcome.handledReply d, d.q)
  else
    (PlusOutcome.warnedIgnored, q)

/-- A reply queue with one pending promise for code OK. -/
def qOnePending : ReplyQ := [("OK", [{ fut := 1, timer := 101 }])]

/-- A reply queue built by two `send_message` calls both expecting code
BRSF: entry fut 1 is the older, entry fut 2 the newer. -/
def qTwoPending : ReplyQ :=
  sendTrack (sendTrack [] "BRSF" { fut := 1, timer := 101 })
    "BRSF" { fut := 2, timer := 102 }

/-! # Theorems -/

/-- Reading a code back from a stored queue returns what was stored. -/
theorem qFetch_qStore (q : ReplyQ) (code : String) (l : List QEntry) :
    qFetch (qStore q code l) code = l := by
  induction q with
  | nil => simp [qStore, qFetch, List.lookup]
  | cons p rest ih =>
      obtain ⟨c, l0⟩ := p
      by_cases hc : c = code
      · subst hc
        simp [qStore, qFetch, List.lookup]
      · have hbeq : (code == c) = false := by
          simp only [beq_eq_false_iff_ne, ne_eq]
          intro h
          exact hc h.symm
        simp [qStore, hc, qFetch, List.lookup, hbeq]
        simpa [qFetch] using ih

/-- A split that produced no message leaves its input untouched as the
remainder. -/
theorem splitOnCRLF_fst_nil (l : List Nat) (h : (splitOnCRLF l).1 = []) :
    (splitOnCRLF l).2 = l := by
  induction l using splitOnCRLF.induct with
  | case1 => rfl
  | case2 rest ih =>
      rw [splitOnCRLF.eq_2] at h
      simp at h
  | case3 a rest h1 p hp ih =>
      have hp' : (splitOnCRLF rest).1 = [] := hp
      rw [splitOnCRLF.eq_3 a rest h1, hp']
      simp [ih hp']
  | case4 a rest h1 p m ms hp ih =>
      have hp' : (splitOnCRLF rest).1 = m :: ms := hp
      rw [splitOnCRLF.eq_3 a rest h1, hp'] at h
      simp at h

/-- Splitting a concatenation equals splitting the first part and
re-splitting its remainder prepended to the second part — the algebraic
heart of remainder buffering. -/
theorem splitOnCRLF_append (x y : List Nat) :
    splitOnCRLF (x ++ y) =
      ((splitOnCRLF x).1 ++ (splitOnCRLF ((splitOnCRLF x).2 ++ y)).1,
       (splitOnCRLF ((splitOnCRLF x).2 ++ y)).2) := by
  induction x using splitOnCRLF.induct with
  | case1 =>
      simp [splitOnCRLF.eq_1]
  | case2 rest ih =>
      rw [List.cons_append, List.cons_append, splitOnCRLF.eq_2,
        splitOnCRLF.eq_2, ih]
      simp
  | case3 a rest h1 p hp ih =>
      have hp' : (splitOnCRLF rest).1 = [] := hp
      have h2 : (splitOnCRLF rest).2 = rest := splitOnCRLF_fst_nil rest hp'
      rw [splitOnCRLF.eq_3 a rest h1, hp', h2]
      simp
  | case4 a rest h1 p m ms hp ih =>
      have hp' : (splitOnCRLF rest).1 = m :: ms := hp
      have hrest : rest ≠ [] := by
        intro h0
        rw [h0] at hp'
        simp [splitOnCRLF.eq_1] at hp'
      have h1' : ∀ r1 : List Nat, a = 13 → rest ++ y = 10 :: r1 → False := by
        intro r1 ha hr
        cases rest with
        | nil => exact hrest rfl
        | cons r rest2 =>
            rw [List.cons_append] at hr
            have hr10 : r = 10 := (List.cons_eq_cons.mp hr).1
            exact h1 rest2 ha (by rw [hr10])
      rw [List.cons_append, splitOnCRLF.eq_3 a (rest ++ y) h1', ih, hp',
        splitOnCRLF.eq_3 a rest h1, hp']
      simp

/-- The remainder a split leaves contains no CRLF: re-splitting it yields
no message. -/
theorem splitOnCRLF_snd_stable (l : List Nat) :
    splitOnCRLF ((splitOnCRLF l).2) = ([], (splitOnCRLF l).2) := by
  induction l using splitOnCRLF.induct with
  | case1 => rfl
  | case2 rest ih =>
      rw [splitOnCRLF.eq_2]
      exact ih
  | case3 a rest h1 p hp ih =>
      have hp' : (splitOnCRLF rest).1 = [] := hp
      have h2 : (splitOnCRLF rest).2 = rest := splitOnCRLF_fst_nil rest hp'
      rw [splitOnCRLF.eq_3 a rest h1, hp']
      simp only [h2]
      rw [splitOnCRLF.eq_3 a rest h1, hp', h2]
  | case4 a rest h1 p m ms hp ih =>
      have hp' : (splitOnCRLF rest).1 = m :: ms := hp
      rw [splitOnCRLF.eq_3 a rest h1, hp']
      exact ih

/-- Processing chunks one read at a time is splitting their
concatenation, for any starting remainder that holds no delimiter. -/
theorem processChunks_split (cs : List (List Nat)) :
    ∀ rem : List Nat, splitOnCRLF rem = ([], rem) →
      processChunks rem cs = splitOnCRLF (rem ++ cs.flatten) := by
  induction cs with
  | nil =>
      intro rem h
      simp [processChunks, h]
  | cons c cs ih =>
      intro rem h
      have hstable := splitOnCRLF_snd_stable (rem ++ c)
      have ih' := ih (splitOnCRLF (rem ++ c)).2 hstable
      simp only [processChunks, ih']
      rw [show rem ++ (c :: cs).flatten = (rem ++ c) ++ cs.flatten by
        simp]
      rw [splitOnCRLF_append (rem ++ c) cs.flatten]

/-- C6: for every byte sequence of CRLF-delimited messages and every
partition of it into successive reads, the channel dispatches the same
message sequence as when the whole sequence arrives in one read, and the
final buffered trailing fragment is also identical — chunk-boundary
invariance with the partial fragment carried across reads. -/
theorem spc_chunk_boundary_invariance (chunks : List (List Nat)) :
    (dispatchMsgs (processChunks [] chunks).1 =
      dispatchMsgs (splitOnCRLF chunks.flatten).1) ∧
    ((processChunks [] chunks).2 = (splitOnCRLF chunks.flatten).2) := by
  have h := processChunks_split chunks [] rfl
  rw [List.nil_append] at h
  rw [h]
  exact ⟨rfl, rfl⟩

/-- C2 counterexample: with two promises outstanding for code BRSF —
fut 1 queued first (oldest), fut 2 queued second — the arriving BRSF
reply resolves fut 2, the NEWEST entry, because `_on_message` uses
Python's argumentless `list.pop()`; the oldest promise is not the one
resolved, so FIFO resolution fails. -/
theorem reply_resolves_newest_not_oldest :
    (qFetch qTwoPending "BRSF" =
      [{ fut := 1, timer := 101 }, { fut := 2, timer := 102 }]) ∧
    ((deliverReply qTwoPending "BRSF" true).delivery =
      Delivery.resolved { fut := 2, timer := 102 }) ∧
    (Delivery.resolved { fut := 2, timer := 102 } ≠
      Delivery.resolved { fut := 1, timer := 101 }) := by
  refine ⟨by decide, by decide, by decide⟩

/-- C2 amended: for every reply code, an arriving matching reply resolves
the NEWEST queued promise — the entry appended by the most recent send —
in LIFO order, and cancels exactly that promise's timeout timer, leaving
the older entries queued; when no promise for that code is outstanding
and the onMessage callback is set, the decoded payload is delivered to
onMessage. -/
theorem deliver_reply_lifo (q : ReplyQ) (code : String) (cb : Bool) (e : QEntry) :
    ((deliverReply (sendTrack q code e) code cb).delivery = Delivery.resolved e) ∧
    ((deliverReply (sendTrack q code e) code cb).cancelledTimer = some e.timer) ∧
    (qFetch (deliverReply (sendTrack q code e) code cb).q code = qFetch q code) ∧
    (qFetch q code = [] →
      (deliverReply q code true).delivery = Delivery.toOnMessage) := by
  have hfetch : qFetch (sendTrack q code e) code = qFetch q code ++ [e] :=
    qFetch_qStore q code (qFetch q code ++ [e])
  refine ⟨?_, ?_, ?_, ?_⟩
  · simp [deliverReply, popNewest, hfetch, List.getLast?_concat]
  · simp [deliverReply, popNewest, hfetch, List.getLast?_concat]
  · simp [deliverReply, popNewest, hfetch, List.getLast?_concat,
      List.dropLast_concat, qFetch_qStore]
  · intro h
    simp [deliverReply, popNewest, h]

/-- C2 witness: the amended theorem applied with an empty queue, code OK
and one tracked send; the inner no-promise hypothesis is discharged on
the empty queue. -/
theorem deliver_reply_lifo_witness :
    ((deliverReply (sendTrack [] "OK" { fut := 1, timer := 101 }) "OK" true).delivery =
      Delivery.resolved { fut := 1, timer := 101 }) ∧
    ((deliverReply [] "OK" true).delivery = Delivery.toOnMessage) :=
  ⟨(deliver_reply_lifo [] "OK" true { fut := 1, timer := 101 }).1,
   (deliver_reply_lifo [] "OK" true { fut := 1, timer := 101 }).2.2.2 rfl⟩

/-- C3 evaluated at the failing input: with one pending promise queued,
`_on_close` aborts with TypeError — the loop subscripts a list of queue
entries with the string "future" — so no pending promise is failed, the
queues are not cleared and `on_close` never fires; only with an empty
queue dict does the handler complete and fire `on_close`. -/
theorem on_close_typeerror_with_pending :
    (onCloseStep qOnePending true = Except.error PyErr.typeError) ∧
    (onCloseStep [] true =
      Except.ok { failedFutures := [], queueCleared := true, onCloseFired := true }) := by
  refine ⟨rfl, rfl⟩

/-- C10: a received +CODE:params message whose code has no decoder method
on the channel — neither the CME shortcut nor any `_handle_` method — is
logged and discarded: no callback is invoked and the reply queue is
returned untouched, so no queued promise for any code is resolved, failed
or removed, and no exception escapes. -/
theorem unknown_code_ignored (q : ReplyQ) (code : String) (cbm cbe : Bool)
    (h : hasDecoder code = false) :
    onPlusMessage q code cbm cbe = (PlusOutcome.warnedIgnored, q) := by
  have hcme : ¬ (code = "CME") := by
    intro hc
    subst hc
    exact absurd h (by decide)
  simp [onPlusMessage, hcme, h]

/-- C10 witness: code XYZ has no decoder, and its message leaves a queue
with one pending OK promise untouched. -/
theorem unknown_code_ignored_witness :
    (hasDecoder "XYZ" = false) ∧
    (onPlusMessage qOnePending "XYZ" true true =
      (PlusOutcome.warnedIgnored, qOnePending)) :=
  ⟨by decide, unknown_code_ignored qOnePending "XYZ" true true (by decide)⟩

/-- C9: for every buffer state and requested count, `get` returns the
first `min n length` buffered bytes and removes exactly those bytes (their
concatenation with the remainder restores the buffer, so byte order is
preserved); `get` on an empty buffer returns the empty byte string; data
appended later comes out after existing content; `prepend` places its data
ahead of all existing content. -/
theorem bufGet_min_and_order (buf d : List Nat) (n : Nat) :
    ((bufGet buf n).1.length = min n buf.length) ∧
    ((bufGet buf n).1 ++ (bufGet buf n).2 = buf) ∧
    ((bufGet ([] : List Nat) n).1 = []) ∧
    (bufGet (bufAppend buf d) (buf.length + d.length) = (buf ++ d, [])) ∧
    ((bufGet (bufPrepend d buf) d.length).1 = d) := by
  refine ⟨?_, ?_, ?_, ?_, ?_⟩
  · simp [bufGet]
  · simp [bufGet]
  · simp [bufGet]
  · simp [bufGet, bufAppend, Prod.ext_iff, List.take_of_length_le,
      List.drop_of_length_le]
  · simp [bufGet, bufPrepend, List.take_left]

/-- C1: the feature dict built by `_handle_brsf` never contains the
CODEC_NEG key, so the codec step of `_do_handshake` raises `KeyError` on
every AG feature bitmap instead of continuing to the indicator queries. -/
theorem brsf_codec_step_keyerror (n : Nat) :
    ((handle_brsf n).lookup "CODEC_NEG" = none) ∧
    (handshakeCodecStep (handle_brsf n) = Except.error PyErr.keyError) := by
  constructor
  · simp [handle_brsf, List.lookup]
  · simp [handshakeCodecStep, dictGetB, handle_brsf, List.lookup]

/-- C4 (machine modelled from the spec, its source being absent): the
event sequence call=0, callsetup=3 (incoming), call=1 (answered), call=0
(ended) drives the pure transition function through the state sequence
idle, ringing, active, idle with exactly 3 transitions reporting a
change. -/
theorem csm_incoming_call_sequence :
    csmRun CallState.idle
      [("call", "0"), ("callsetup", "3"), ("call", "1"), ("call", "0")] =
      ([CallState.idle, CallState.ringing, CallState.active, CallState.idle], 3) := by
  decide

/-- C8 evaluated at failing inputs: with the pump started, a `recv` error
on the first iteration sets `fatal`, yet the guard `self._started or
fatal` still holds, so the next iteration performs another `recv`
(socketOps reaches 2) and the error is never dispatched to
`on_fatal_error` (reported stays 0) while the loop remains live; and two
consecutive poll failures dispatch `on_fatal_error` twice, not once. -/
theorem pump_error_not_fatal_stop :
    ((pumpRun 1 pumpStart [readFailEnv, readOkEnv]).fatal = true) ∧
    ((pumpRun 1 pumpStart [readFailEnv, readOkEnv]).socketOps = 2) ∧
    ((pumpRun 1 pumpStart [readFailEnv, readOkEnv]).reported = 0) ∧
    (pumpLoopCond (pumpRun 1 pumpStart [readFailEnv, readOkEnv]) = true) ∧
    ((pumpRun 1 pumpStart [pollFailEnv, pollFailEnv]).reported = 2) := by
  decide

/-- C7 counterexample: a started sink inside an open buffering window
(now = 50, window end = 100) holding 4 buffered bytes — more than the one
requested frame of 2 bytes — still returns silence, not the buffered
data, so resumption is not triggered by buffer occupancy alone. -/
theorem sink_buffered_data_not_returned_in_window :
    ((dataRequired sinkInWindow 50 2000 1).1 =
      (silenceBytes 1, PaFlag.paContinue)) ∧
    silenceBytes 1 ≠ [1, 2] := by
  refine ⟨by decide, by decide⟩

/-- C7 amended: the silence handed to PortAudio has exactly the requested
byte size; whenever the callback requests more bytes than the ring buffer
holds the callback returns silence of exactly the requested size (total
function — no exception, no out-of-bounds read); and the callback returns
real buffered data as soon as the buffering window is over (the buffering
flag is clear or the window end has passed) and at least one requested
frame count is buffered, consuming exactly those bytes. -/
theorem sink_underrun_silence_and_windowed_resume (st : SinkState)
    (now dur fc : Nat) (hs : st.started = true) :
    ((silenceBytes fc).length = sinkFrameSize * fc) ∧
    (st.buffer.length < sinkFrameSize * fc →
      (dataRequired st now dur fc).1 = (silenceBytes fc, PaFlag.paContinue)) ∧
    ((st.buffering = false ∨ st.bufferEnd ≤ now) →
      sinkFrameSize * fc ≤ st.buffer.length →
      (dataRequired st now dur fc).1 =
        (st.buffer.take (sinkFrameSize * fc), PaFlag.paContinue) ∧
      (dataRequired st now dur fc).2.buffer =
        st.buffer.drop (sinkFrameSize * fc)) := by
  refine ⟨by simp [silenceBytes], ?_, ?_⟩
  · intro hlt
    have hreq : ¬ (sinkFrameSize * fc ≤ st.buffer.length) := by omega
    cases hb : (st.buffering && decide (now < st.bufferEnd)) <;>
      simp [dataRequired, hs, hb, hreq]
  · intro hw hge
    have hb : (st.buffering && decide (now < st.bufferEnd)) = false := by
      rcases hw with h | h
      · simp [h]
      · have hd : decide (now < st.bufferEnd) = false := by
          simp only [decide_eq_false_iff_not]
          omega
        simp [hd]
    simp [dataRequired, hs, hb, hge, bufGet]

/-- C7 witness: the amended theorem applied to a started sink outside the
buffering window with 4 buffered bytes and one requested frame. -/
theorem sink_windowed_resume_witness :
    ((silenceBytes 1).length = sinkFrameSize * 1) ∧
    (sinkReadyState.buffer.length < sinkFrameSize * 1 →
      (dataRequired sinkReadyState 5 2000 1).1 =
        (silenceBytes 1, PaFlag.paContinue)) ∧
    ((sinkReadyState.buffering = false ∨ sinkReadyState.bufferEnd ≤ 5) →
      sinkFrameSize * 1 ≤ sinkReadyState.buffer.length →
      (dataRequired sinkReadyState 5 2000 1).1 =
        (sinkReadyState.buffer.take (sinkFrameSize * 1), PaFlag.paContinue) ∧
      (dataRequired sinkReadyState 5 2000 1).2.buffer =
        sinkReadyState.buffer.drop (sinkFrameSize * 1)) :=
  sink_underrun_silence_and_windowed_resume sinkReadyState 5 2000 1 rfl

/-- C5 evaluated at the failing input: an accepted SCO connection whose
sample-format option reads 0 (not the supported constant 96) makes the
acceptor report a setup error and withhold the connected event, but the
source returns without closing the accepted socket. -/
theorem sco_bad_format_leaves_socket_open :
    scoConnectionReady (Except.ok 48) (Except.ok 0) =
      { setupError := true, acceptedClosed := false, connectedFired := false } := by
  rfl
